import Mathlib

/-!
A shallow embedding of `src/o3de_setup_script.py` (class `O3DECameraSetup`).

The script drives the O3DE editor through `azlmbr` bus calls and writes three
on-disk artifacts.  The embedding makes the host editor and the file system an
explicit stub parameter (`Host`) and threads the run's observable state
(`SetupState`) through every operation, Python-style: state mutations made
before an exception persist, exceptions are values of `Except PyErr`.

Modelling conventions, matched one-to-one with the source:
* `CreateNewEntity`/`SetName` hand out sequential entity ids and log the name
  assignment; the stub can be told to raise on a given entity name
  (`Host.createEntityRaisesOn`), standing for a host-side failure of that
  construction step.
* `FindComponentTypeIdsByEntityType [n] 0` is `Host.findComponentTypeIds n`;
  the Python truthiness test `if component_type:` is the `isEmpty` test.
* `AddComponentsOfType` attaches one fresh component handle per resolved type
  id and logs each attachment; `component[0] if component else None` is
  `handles.head?`.
* `SetComponentProperty` logs the call and returns the stub's success bit
  (`outcome.IsSuccess()`).
* `SetWorldTM`/`SetLocalTM` log the transform assignment.  Building the
  transform value (`Transform_CreateTranslation` / `Transform_CreateScale` /
  `Transform_CreateRotation` of `Quaternion_CreateFromEulerAngles`) is kept as
  the inductive `Transform`, with the rotation kept as its Euler angles.
* `os.makedirs(..., exist_ok=True)` logs the created directory and can be told
  to raise; in the source it sits OUTSIDE the artifact writers' `try` blocks.
* `with open(p, "w") as f: f.write(...)` first logs the attempt, then (per
  CPython/POSIX semantics) truncates the file on a successful open, then
  writes the full content; the stub can make the open or the write raise.
* The three fixed literal file templates (header, cpp, README) are opaque
  distinct constants of `FileContent`; the input-binding document is kept as
  its structured content (version tag plus the ordered record list), since
  `json.dump` of that fixed dict is deterministic and injective.
* `print` calls and the returned entity ids' display are side-effect free for
  every property below and are elided.
* `self.project_path` (derived from `GetGameFolder`) is `Host.projectPath`;
  `os.path.join` is `pjoin`.
-/

deriving instance DecidableEq for Except

/-- Rational 3-vectors, standing in for `azlmbr.math.Vector3`
(the script only ever passes literal coordinates through to the host). -/
structure Vec3 where
  x : Rat
  y : Rat
  z : Rat
  deriving DecidableEq

/-- A transform value handed to `SetWorldTM`/`SetLocalTM`: the three
constructors are `Transform_CreateTranslation`, `Transform_CreateScale` and
`Transform_CreateRotation (Quaternion_CreateFromEulerAngles euler)`. -/
inductive Transform where
  | translation (v : Vec3)
  | scale (v : Vec3)
  | rotation (euler : Vec3)
  deriving DecidableEq

/-- A property value passed to `SetComponentProperty`: the script only passes
numeric literals and `Vector3` literals. -/
inductive Value where
  | num (q : Rat)
  | vec3 (v : Vec3)
  deriving DecidableEq

/-- One record of the `bindings` dict literal in `create_input_bindings`. -/
structure InputBinding where
  name : String
  event_generator : String
  event_name : String
  deriving DecidableEq

/-- File contents.  `bindingsDoc` is the structured document
`{version: ..., bindings: [...]}` that `json.dump` serializes; the three
template constants are the fixed string literals of the source, kept opaque
and pairwise distinct; `truncated` is the empty file that `open(p, "w")`
leaves behind the moment it succeeds; `preexisting` stands for arbitrary
other bytes already on disk before the run. -/
inductive FileContent where
  | bindingsDoc (version : Nat) (bindings : List InputBinding)
  | headerTemplate
  | cppTemplate
  | readmeTemplate
  | truncated
  | preexisting (tag : Nat)
  deriving DecidableEq

/-- A Python exception escaping a modelled call. -/
inductive PyErr where
  | hostError (name : String)
  | osError (path : String)
  | ioError (path : String)
  deriving DecidableEq

/-- The stub host editor plus stub file system: the external collaborators of
the script, one field per behaviour the script can observe. -/
structure Host where
  projectPath : String
  findComponentTypeIds : String → List Nat
  setPropertySuccess : Nat → String → Bool
  createEntityRaisesOn : String → Bool
  makedirsFails : String → Bool
  openFails : String → Bool
  writeFails : String → Bool

/-- The observable state of one run: the host scene (entities, names,
attachments, property-set calls, transforms), the run registry
`created_entities`, and the file system. -/
structure SetupState where
  nextEntityId : Nat
  nextComponentId : Nat
  entityNames : List (Nat × String)
  created_entities : List (String × Nat)
  attachedComponents : List (Nat × Nat × String)
  propertyCalls : List (Nat × String × Value)
  worldTransforms : List (Nat × Transform)
  localTransforms : List (Nat × Transform)
  dirs : List String
  writeAttempts : List String
  files : List (String × FileContent)
  deriving DecidableEq

/-- Python dict assignment `d[k] = v`: overwrite in place, else append. -/
def updateAssoc {β : Type} (l : List (String × β)) (k : String) (v : β) :
    List (String × β) :=
  match l with
  | [] => [(k, v)]
  | (k1, v1) :: t => if k1 = k then (k, v) :: t else (k1, v1) :: updateAssoc t k v

/-- Python dict lookup `d.get(k)`. -/
def lookupAssoc {β : Type} (l : List (String × β)) (k : String) : Option β :=
  match l with
  | [] => none
  | (k1, v1) :: t => if k1 = k then some v1 else lookupAssoc t k

/-- `os.path.join` for the two-argument calls the script makes. -/
def pjoin (a b : String) : String := a ++ "/" ++ b

/-- Embeds `create_entity(self, name, parent_id=None)`: `CreateNewEntity` then
`SetName`.  The stub raises when told to for this name; otherwise it returns
the next sequential entity id.  Note the run registry `created_entities` is
NOT touched here — the callers assign to it. -/
def create_entity (host : Host) (name : String) (parent_id : Option Nat)
    (s : SetupState) : Except PyErr Nat × SetupState :=
  if host.createEntityRaisesOn name then (Except.error (PyErr.hostError name), s)
  else
    let entity_id := s.nextEntityId
    let s := { s with
      nextEntityId := entity_id + 1,
      entityNames := s.entityNames ++ [(entity_id, name)] }
    (Except.ok entity_id, s)

/-- Embeds `add_component(self, entity_id, component_type_name)`:
`FindComponentTypeIdsByEntityType`, and when the lookup is non-empty,
`AddComponentsOfType` (one fresh handle per type id) returning
`component[0] if component else None`; when empty, report not-found and
return `None`. -/
def add_component (host : Host) (entity_id : Nat) (component_type_name : String)
    (s : SetupState) : Option Nat × SetupState :=
  let component_type := host.findComponentTypeIds component_type_name
  if component_type.isEmpty then
    (none, s)
  else
    let handles := (List.range component_type.length).map (fun i => s.nextComponentId + i)
    let s := { s with
      nextComponentId := s.nextComponentId + component_type.length,
      attachedComponents :=
        s.attachedComponents ++ handles.map (fun h => (h, entity_id, component_type_name)) }
    (handles.head?, s)

/-- Embeds `set_component_property(self, entity_id, component_id, property_path, value)`:
one `SetComponentProperty` bus call, returning `outcome.IsSuccess()`.
(The source never passes `entity_id` to the bus call either.) -/
def set_component_property (host : Host) (entity_id component_id : Nat)
    (property_path : String) (value : Value) (s : SetupState) : Bool × SetupState :=
  let s := { s with propertyCalls := s.propertyCalls ++ [(component_id, property_path, value)] }
  (host.setPropertySuccess component_id property_path, s)

/-- Embeds `setup_camera_entity`: create and register the camera, attach `Camera`
and, when attached, set FOV/near/far, then `SetWorldTM` to a translation. -/
def setup_camera_entity (host : Host) (s : SetupState) : Except PyErr Nat × SetupState :=
  match create_entity host "VehicleCamera" none s with
  | (Except.error e, s) => (Except.error e, s)
  | (Except.ok camera_id, s) =>
    let s := { s with created_entities := updateAssoc s.created_entities "camera" camera_id }
    match add_component host camera_id "Camera" s with
    | (camera_component, s) =>
      let s :=
        match camera_component with
        | some c =>
          let (_, s) := set_component_property host camera_id c "Field of View" (Value.num 90) s
          let (_, s) := set_component_property host camera_id c "Near Clip Distance" (Value.num (1/10)) s
          let (_, s) := set_component_property host camera_id c "Far Clip Distance" (Value.num 1000) s
          s
        | none => s
      let s := { s with worldTransforms :=
        s.worldTransforms ++ [(camera_id, Transform.translation (Vec3.mk 0 (-10) 5))] }
      (Except.ok camera_id, s)

/-- Embeds `setup_vehicle_entity`: create and register the vehicle, attach `Mesh`,
attach `PhysX Rigid Body` and, when attached, set its two properties, attach
`PhysX Collider`, then `SetWorldTM` to a translation. -/
def setup_vehicle_entity (host : Host) (s : SetupState) : Except PyErr Nat × SetupState :=
  match create_entity host "PlayerVehicle" none s with
  | (Except.error e, s) => (Except.error e, s)
  | (Except.ok vehicle_id, s) =>
    let s := { s with created_entities := updateAssoc s.created_entities "vehicle" vehicle_id }
    match add_component host vehicle_id "Mesh" s with
    | (_mesh_component, s) =>
      match add_component host vehicle_id "PhysX Rigid Body" s with
      | (rigid_body, s) =>
        let s :=
          match rigid_body with
          | some c =>
            let (_, s) := set_component_property host vehicle_id c "Initial linear velocity"
              (Value.vec3 (Vec3.mk 0 0 0)) s
            let (_, s) := set_component_property host vehicle_id c "Mass" (Value.num 1500) s
            s
          | none => s
        match add_component host vehicle_id "PhysX Collider" s with
        | (_collider, s) =>
          let s := { s with worldTransforms :=
            s.worldTransforms ++ [(vehicle_id, Transform.translation (Vec3.mk 0 0 1))] }
          (Except.ok vehicle_id, s)

/-- Embeds `setup_game_manager`: create and register the manager, attach
`Script Canvas`; no transform. -/
def setup_game_manager (host : Host) (s : SetupState) : Except PyErr Nat × SetupState :=
  match create_entity host "GameManager" none s with
  | (Except.error e, s) => (Except.error e, s)
  | (Except.ok manager_id, s) =>
    let s := { s with created_entities := updateAssoc s.created_entities "manager" manager_id }
    match add_component host manager_id "Script Canvas" s with
    | (_script_component, s) => (Except.ok manager_id, s)

/-- Embeds `setup_ground_plane`: create and register the ground, attach `Mesh`,
`PhysX Static Rigid Body` and `PhysX Collider`, then `SetLocalTM` to a
scale. -/
def setup_ground_plane (host : Host) (s : SetupState) : Except PyErr Nat × SetupState :=
  match create_entity host "GroundPlane" none s with
  | (Except.error e, s) => (Except.error e, s)
  | (Except.ok ground_id, s) =>
    let s := { s with created_entities := updateAssoc s.created_entities "ground" ground_id }
    match add_component host ground_id "Mesh" s with
    | (_mesh_component, s) =>
      match add_component host ground_id "PhysX Static Rigid Body" s with
      | (_collider, s) =>
        match add_component host ground_id "PhysX Collider" s with
        | (_box_collider, s) =>
          let s := { s with localTransforms :=
            s.localTransforms ++ [(ground_id, Transform.scale (Vec3.mk 100 100 1))] }
          (Except.ok ground_id, s)

/-- Embeds `setup_lighting`: create and register the light, attach
`Directional Light`, then `SetLocalTM` to a rotation from Euler angles. -/
def setup_lighting (host : Host) (s : SetupState) : Except PyErr Nat × SetupState :=
  match create_entity host "DirectionalLight" none s with
  | (Except.error e, s) => (Except.error e, s)
  | (Except.ok light_id, s) =>
    let s := { s with created_entities := updateAssoc s.created_entities "light" light_id }
    match add_component host light_id "Directional Light" s with
    | (_light_component, s) =>
      let s := { s with localTransforms :=
        s.localTransforms ++ [(light_id, Transform.rotation (Vec3.mk (-45) 0 0))] }
      (Except.ok light_id, s)

/-- Embeds `os.makedirs(path, exist_ok=True)`: logs the directory; raises when the
stub file system says so. -/
def makedirs (host : Host) (path : String) (s : SetupState) :
    Except PyErr Unit × SetupState :=
  if host.makedirsFails path then (Except.error (PyErr.osError path), s)
  else (Except.ok (), { s with dirs := s.dirs ++ [path] })

/-- Embeds `with open(path, "w") as f: f.write(content)` (or `json.dump`): the
attempt is logged; a failing open raises with the file untouched; a
successful open truncates the file at once, after which a failing write
raises leaving the truncation behind; otherwise the full content lands. -/
def fsWrite (host : Host) (path : String) (content : FileContent) (s : SetupState) :
    Except PyErr Unit × SetupState :=
  let s := { s with writeAttempts := s.writeAttempts ++ [path] }
  if host.openFails path then (Except.error (PyErr.ioError path), s)
  else
    let s := { s with files := updateAssoc s.files path FileContent.truncated }
    if host.writeFails path then (Except.error (PyErr.ioError path), s)
    else (Except.ok (), { s with files := updateAssoc s.files path content })

/-- The fixed `bindings` dict literal of `create_input_bindings`, in source order. -/
def bindings : List InputBinding :=
  [⟨"camera_cycle", "keyboard_key_c", "camera_cycle"⟩,
   ⟨"camera_look_back", "gamepad_button_r1", "camera_look_back"⟩,
   ⟨"camera_menu", "keyboard_key_f1", "camera_menu"⟩,
   ⟨"photo_mode", "keyboard_key_f6", "photo_mode"⟩,
   ⟨"vehicle_forward", "keyboard_key_w", "vehicle_forward"⟩,
   ⟨"vehicle_backward", "keyboard_key_s", "vehicle_backward"⟩,
   ⟨"vehicle_left", "keyboard_key_a", "vehicle_left"⟩,
   ⟨"vehicle_right", "keyboard_key_d", "vehicle_right"⟩]

/-- Python `os.path.join(self.project_path, "Config", "Input")`. -/
def input_folder (host : Host) : String := pjoin (pjoin host.projectPath "Config") "Input"

/-- Python `os.path.join(input_folder, "vehicle_camera.inputbindings")`. -/
def input_file (host : Host) : String := pjoin (input_folder host) "vehicle_camera.inputbindings"

/-- Python `os.path.join(self.project_path, "Gem", "Code", "Source", "Components")`. -/
def gem_code_path (host : Host) : String :=
  pjoin (pjoin (pjoin (pjoin host.projectPath "Gem") "Code") "Source") "Components"

/-- Python `os.path.join(gem_code_path, "VehicleCombatCameraComponent.h")`. -/
def header_file (host : Host) : String :=
  pjoin (gem_code_path host) "VehicleCombatCameraComponent.h"

/-- Python `os.path.join(gem_code_path, "VehicleCombatCameraComponent.cpp")`. -/
def cpp_file (host : Host) : String :=
  pjoin (gem_code_path host) "VehicleCombatCameraComponent.cpp"

/-- Python `os.path.join(self.project_path, "CAMERA_SETUP_README.md")`. -/
def readme_file (host : Host) : String := pjoin host.projectPath "CAMERA_SETUP_README.md"

/-- Embeds `create_input_bindings`: build the fixed document, `makedirs` the input
folder (outside the `try`: a failure here propagates), then try to dump it,
returning `True`, and `False` on a caught write exception. -/
def create_input_bindings (host : Host) (s : SetupState) :
    Except PyErr Bool × SetupState :=
  match makedirs host (input_folder host) s with
  | (Except.error e, s) => (Except.error e, s)
  | (Except.ok _, s) =>
    match fsWrite host (input_file host) (FileContent.bindingsDoc 1 bindings) s with
    | (Except.error _, s) => (Except.ok false, s)
    | (Except.ok _, s) => (Except.ok true, s)

/-- Embeds `create_component_source_files`: `makedirs` the gem components folder
(outside the `try`), then in one `try` write the header and then the cpp
template, returning `True`; a caught exception at either write returns
`False` (a header failure skips the cpp write). -/
def create_component_source_files (host : Host) (s : SetupState) :
    Except PyErr Bool × SetupState :=
  match makedirs host (gem_code_path host) s with
  | (Except.error e, s) => (Except.error e, s)
  | (Except.ok _, s) =>
    match fsWrite host (header_file host) FileContent.headerTemplate s with
    | (Except.error _, s) => (Except.ok false, s)
    | (Except.ok _, s) =>
      match fsWrite host (cpp_file host) FileContent.cppTemplate s with
      | (Except.error _, s) => (Except.ok false, s)
      | (Except.ok _, s) => (Except.ok true, s)

/-- Embeds `create_readme`: try to write the fixed README (no `makedirs`), returning
`True`, and `False` on a caught write exception. -/
def create_readme (host : Host) (s : SetupState) : Except PyErr Bool × SetupState :=
  match fsWrite host (readme_file host) FileContent.readmeTemplate s with
  | (Except.error _, s) => (Except.ok false, s)
  | (Except.ok _, s) => (Except.ok true, s)

/-- One step inside `run_full_setup`'s single `try`: an exception anywhere
falls to the `except` clause, which returns `False` with all state changes
made so far kept; otherwise the run continues. -/
def step {α : Type} (r : Except PyErr α × SetupState)
    (k : SetupState → Bool × SetupState) : Bool × SetupState :=
  match r with
  | (Except.error _, s) => (false, s)
  | (Except.ok _, s) => k s

/-- Embeds `run_full_setup`: the five entity steps then the three artifact steps in
one `try`; returns `True` at the end of the body, `False` from the `except`
clause.  The three artifact writers' boolean results are discarded. -/
def run_full_setup (host : Host) (s : SetupState) : Bool × SetupState :=
  step (setup_camera_entity host s) fun s =>
  step (setup_vehicle_entity host s) fun s =>
  step (setup_game_manager host s) fun s =>
  step (setup_ground_plane host s) fun s =>
  step (setup_lighting host s) fun s =>
  step (create_input_bindings host s) fun s =>
  step (create_component_source_files host s) fun s =>
  step (create_readme host s) fun s =>
  (true, s)

/-- The state at `O3DECameraSetup.__init__`: empty registry, fresh counters,
and (for the theorems that want one) whatever file system the run starts
over — the pristine one here. -/
def initialState : SetupState :=
  { nextEntityId := 0, nextComponentId := 0, entityNames := [],
    created_entities := [], attachedComponents := [], propertyCalls := [],
    worldTransforms := [], localTransforms := [], dirs := [],
    writeAttempts := [], files := [] }

/-- A fully functional stub host: every lookup resolves (to one type id),
every property set succeeds, nothing raises. -/
def stubHost : Host :=
  { projectPath := "Project",
    findComponentTypeIds := fun _ => [1],
    setPropertySuccess := fun _ _ => true,
    createEntityRaisesOn := fun _ => false,
    makedirsFails := fun _ => false,
    openFails := fun _ => false,
    writeFails := fun _ => false }

/-- A stub host on which every artifact open raises (every writer reports
failure) but no exception escapes any step. -/
def allWritesFailHost : Host :=
  { stubHost with openFails := fun _ => true }

/-- A stub host whose entity creation raises at the ground-plane step
(after camera, vehicle and manager went through). -/
def groundRaisesHost : Host :=
  { stubHost with createEntityRaisesOn := fun n => n = "GroundPlane" }

/-- A stub host on which `"PhysX Rigid Body"` resolves to nothing while
everything else works. -/
def noRigidBodyHost : Host :=
  { stubHost with findComponentTypeIds := fun n =>
      if n = "PhysX Rigid Body" then [] else [1] }

/-- A stub host on which the input-binding artifact's open succeeds but the
write itself raises (e.g. the disk fills): the open has already truncated. -/
def bindingsWriteRaisesHost : Host :=
  { stubHost with writeFails := fun p => p = input_file stubHost }

/-- A stub host on which the input-binding artifact's open raises (its
directory is unwritable) while the other artifacts write fine. -/
def bindingsOpenFailsHost : Host :=
  { stubHost with openFails := fun p => p = input_file stubHost }

/-- A starting state whose file system already holds other bytes at the
input-binding artifact path, standing for a file left by an earlier run or by
the user. -/
def preBindingsState : SetupState :=
  { initialState with files := [(input_file stubHost, FileContent.preexisting 7)] }

/-- Every `SetComponentProperty` call on record was made with the handle of a
component that is attached on record: the host's property-set operation is
never handed a missing component. -/
def propertyCallsSafe (s : SetupState) : Prop :=
  ∀ pc ∈ s.propertyCalls, ∃ ac ∈ s.attachedComponents, ac.1 = pc.1

instance (s : SetupState) : Decidable (propertyCallsSafe s) := by
  unfold propertyCallsSafe; infer_instance

theorem range_one_eq : List.range 1 = [0] := rfl

theorem updateAssoc_updateAssoc {β : Type} (l : List (String × β)) (k : String) (a b : β) :
    updateAssoc (updateAssoc l k a) k b = updateAssoc l k b := by
  induction l with
  | nil => simp [updateAssoc]
  | cons h t ih =>
    obtain ⟨k1, v1⟩ := h
    by_cases hk : k1 = k <;> simp [updateAssoc, hk, ih]

theorem lookupAssoc_updateAssoc_self {β : Type} (l : List (String × β)) (k : String) (v : β) :
    lookupAssoc (updateAssoc l k v) k = some v := by
  induction l with
  | nil => simp [updateAssoc, lookupAssoc]
  | cons h t ih =>
    obtain ⟨k1, v1⟩ := h
    by_cases hk : k1 = k <;> simp [updateAssoc, lookupAssoc, hk, ih]

theorem lookupAssoc_updateAssoc_ne {β : Type} (l : List (String × β)) (k k2 : String) (v : β)
    (h : k ≠ k2) : lookupAssoc (updateAssoc l k v) k2 = lookupAssoc l k2 := by
  induction l with
  | nil => simp [updateAssoc, lookupAssoc, h]
  | cons hd t ih =>
    obtain ⟨k1, v1⟩ := hd
    by_cases hk : k1 = k
    · subst hk; simp [updateAssoc, lookupAssoc, h]
    · simp [updateAssoc, lookupAssoc, hk, ih]

theorem create_entity_eq (host : Host) (name : String) (pid : Option Nat) (s : SetupState)
    (h : host.createEntityRaisesOn name = false) :
    create_entity host name pid s =
      (Except.ok s.nextEntityId,
        { s with nextEntityId := s.nextEntityId + 1,
                 entityNames := s.entityNames ++ [(s.nextEntityId, name)] }) := by
  simp [create_entity, h]

theorem create_entity_raise (host : Host) (name : String) (pid : Option Nat) (s : SetupState)
    (h : host.createEntityRaisesOn name = true) :
    create_entity host name pid s = (Except.error (PyErr.hostError name), s) := by
  simp [create_entity, h]

theorem add_component_found (host : Host) (e : Nat) (n : String) (t : Nat) (s : SetupState)
    (h : host.findComponentTypeIds n = [t]) :
    add_component host e n s =
      (some s.nextComponentId,
        { s with nextComponentId := s.nextComponentId + 1,
                 attachedComponents := s.attachedComponents ++ [(s.nextComponentId, e, n)] }) := by
  simp [add_component, h, range_one_eq]

theorem add_component_missing (host : Host) (e : Nat) (n : String) (s : SetupState)
    (h : host.findComponentTypeIds n = []) :
    add_component host e n s = (none, s) := by
  simp [add_component, h]

theorem set_component_property_eq (host : Host) (e c : Nat) (p : String) (v : Value)
    (s : SetupState) :
    set_component_property host e c p v s =
      (host.setPropertySuccess c p,
        { s with propertyCalls := s.propertyCalls ++ [(c, p, v)] }) := rfl

theorem makedirs_ok (host : Host) (p : String) (s : SetupState)
    (h : host.makedirsFails p = false) :
    makedirs host p s = (Except.ok (), { s with dirs := s.dirs ++ [p] }) := by
  simp [makedirs, h]

theorem makedirs_fail (host : Host) (p : String) (s : SetupState)
    (h : host.makedirsFails p = true) :
    makedirs host p s = (Except.error (PyErr.osError p), s) := by
  simp [makedirs, h]

theorem fsWrite_ok (host : Host) (p : String) (c : FileContent) (s : SetupState)
    (ho : host.openFails p = false) (hw : host.writeFails p = false) :
    fsWrite host p c s =
      (Except.ok (), { s with writeAttempts := s.writeAttempts ++ [p],
                              files := updateAssoc s.files p c }) := by
  simp [fsWrite, ho, hw, updateAssoc_updateAssoc]

theorem fsWrite_openFail (host : Host) (p : String) (c : FileContent) (s : SetupState)
    (ho : host.openFails p = true) :
    fsWrite host p c s =
      (Except.error (PyErr.ioError p), { s with writeAttempts := s.writeAttempts ++ [p] }) := by
  simp [fsWrite, ho]

theorem fsWrite_writeFail (host : Host) (p : String) (c : FileContent) (s : SetupState)
    (ho : host.openFails p = false) (hw : host.writeFails p = true) :
    fsWrite host p c s =
      (Except.error (PyErr.ioError p),
        { s with writeAttempts := s.writeAttempts ++ [p],
                 files := updateAssoc s.files p FileContent.truncated }) := by
  simp [fsWrite, ho, hw]

theorem setup_camera_entity_spec (host : Host) (t : Nat) (s : SetupState)
    (hr : host.createEntityRaisesOn "VehicleCamera" = false)
    (hf : host.findComponentTypeIds "Camera" = [t]) :
    setup_camera_entity host s =
      (Except.ok s.nextEntityId,
        { s with
          nextEntityId := s.nextEntityId + 1,
          nextComponentId := s.nextComponentId + 1,
          entityNames := s.entityNames ++ [(s.nextEntityId, "VehicleCamera")],
          created_entities := updateAssoc s.created_entities "camera" s.nextEntityId,
          attachedComponents :=
            s.attachedComponents ++ [(s.nextComponentId, s.nextEntityId, "Camera")],
          propertyCalls := s.propertyCalls ++
            [(s.nextComponentId, "Field of View", Value.num 90),
             (s.nextComponentId, "Near Clip Distance", Value.num (1/10)),
             (s.nextComponentId, "Far Clip Distance", Value.num 1000)],
          worldTransforms := s.worldTransforms ++
            [(s.nextEntityId, Transform.translation (Vec3.mk 0 (-10) 5))] }) := by
  simp [setup_camera_entity, create_entity, hr, add_component, hf,
        set_component_property, range_one_eq]

theorem setup_vehicle_entity_spec (host : Host) (t1 t2 t3 : Nat) (s : SetupState)
    (hr : host.createEntityRaisesOn "PlayerVehicle" = false)
    (hf1 : host.findComponentTypeIds "Mesh" = [t1])
    (hf2 : host.findComponentTypeIds "PhysX Rigid Body" = [t2])
    (hf3 : host.findComponentTypeIds "PhysX Collider" = [t3]) :
    setup_vehicle_entity host s =
      (Except.ok s.nextEntityId,
        { s with
          nextEntityId := s.nextEntityId + 1,
          nextComponentId := s.nextComponentId + 1 + 1 + 1,
          entityNames := s.entityNames ++ [(s.nextEntityId, "PlayerVehicle")],
          created_entities := updateAssoc s.created_entities "vehicle" s.nextEntityId,
          attachedComponents := s.attachedComponents ++
            [(s.nextComponentId, s.nextEntityId, "Mesh"),
             (s.nextComponentId + 1, s.nextEntityId, "PhysX Rigid Body"),
             (s.nextComponentId + 1 + 1, s.nextEntityId, "PhysX Collider")],
          propertyCalls := s.propertyCalls ++
            [(s.nextComponentId + 1, "Initial linear velocity", Value.vec3 (Vec3.mk 0 0 0)),
             (s.nextComponentId + 1, "Mass", Value.num 1500)],
          worldTransforms := s.worldTransforms ++
            [(s.nextEntityId, Transform.translation (Vec3.mk 0 0 1))] }) := by
  simp [setup_vehicle_entity, create_entity, hr, add_component, hf1, hf2, hf3,
        set_component_property, range_one_eq]

theorem setup_vehicle_entity_noRB_spec (host : Host) (t1 t3 : Nat) (s : SetupState)
    (hr : host.createEntityRaisesOn "PlayerVehicle" = false)
    (hf1 : host.findComponentTypeIds "Mesh" = [t1])
    (hf2 : host.findComponentTypeIds "PhysX Rigid Body" = [])
    (hf3 : host.findComponentTypeIds "PhysX Collider" = [t3]) :
    setup_vehicle_entity host s =
      (Except.ok s.nextEntityId,
        { s with
          nextEntityId := s.nextEntityId + 1,
          nextComponentId := s.nextComponentId + 1 + 1,
          entityNames := s.entityNames ++ [(s.nextEntityId, "PlayerVehicle")],
          created_entities := updateAssoc s.created_entities "vehicle" s.nextEntityId,
          attachedComponents := s.attachedComponents ++
            [(s.nextComponentId, s.nextEntityId, "Mesh"),
             (s.nextComponentId + 1, s.nextEntityId, "PhysX Collider")],
          worldTransforms := s.worldTransforms ++
            [(s.nextEntityId, Transform.translation (Vec3.mk 0 0 1))] }) := by
  simp [setup_vehicle_entity, create_entity, hr, add_component, hf1, hf2, hf3,
        set_component_property, range_one_eq]

theorem setup_game_manager_spec (host : Host) (t : Nat) (s : SetupState)
    (hr : host.createEntityRaisesOn "GameManager" = false)
    (hf : host.findComponentTypeIds "Script Canvas" = [t]) :
    setup_game_manager host s =
      (Except.ok s.nextEntityId,
        { s with
          nextEntityId := s.nextEntityId + 1,
          nextComponentId := s.nextComponentId + 1,
          entityNames := s.entityNames ++ [(s.nextEntityId, "GameManager")],
          created_entities := updateAssoc s.created_entities "manager" s.nextEntityId,
          attachedComponents :=
            s.attachedComponents ++ [(s.nextComponentId, s.nextEntityId, "Script Canvas")] }) := by
  simp [setup_game_manager, create_entity, hr, add_component, hf, range_one_eq]

theorem setup_ground_plane_spec (host : Host) (t1 t2 t3 : Nat) (s : SetupState)
    (hr : host.createEntityRaisesOn "GroundPlane" = false)
    (hf1 : host.findComponentTypeIds "Mesh" = [t1])
    (hf2 : host.findComponentTypeIds "PhysX Static Rigid Body" = [t2])
    (hf3 : host.findComponentTypeIds "PhysX Collider" = [t3]) :
    setup_ground_plane host s =
      (Except.ok s.nextEntityId,
        { s with
          nextEntityId := s.nextEntityId + 1,
          nextComponentId := s.nextComponentId + 1 + 1 + 1,
          entityNames := s.entityNames ++ [(s.nextEntityId, "GroundPlane")],
          created_entities := updateAssoc s.created_entities "ground" s.nextEntityId,
          attachedComponents := s.attachedComponents ++
            [(s.nextComponentId, s.nextEntityId, "Mesh"),
             (s.nextComponentId + 1, s.nextEntityId, "PhysX Static Rigid Body"),
             (s.nextComponentId + 1 + 1, s.nextEntityId, "PhysX Collider")],
          localTransforms := s.localTransforms ++
            [(s.nextEntityId, Transform.scale (Vec3.mk 100 100 1))] }) := by
  simp [setup_ground_plane, create_entity, hr, add_component, hf1, hf2, hf3, range_one_eq]

theorem setup_lighting_spec (host : Host) (t : Nat) (s : SetupState)
    (hr : host.createEntityRaisesOn "DirectionalLight" = false)
    (hf : host.findComponentTypeIds "Directional Light" = [t]) :
    setup_lighting host s =
      (Except.ok s.nextEntityId,
        { s with
          nextEntityId := s.nextEntityId + 1,
          nextComponentId := s.nextComponentId + 1,
          entityNames := s.entityNames ++ [(s.nextEntityId, "DirectionalLight")],
          created_entities := updateAssoc s.created_entities "light" s.nextEntityId,
          attachedComponents :=
            s.attachedComponents ++ [(s.nextComponentId, s.nextEntityId, "Directional Light")],
          localTransforms := s.localTransforms ++
            [(s.nextEntityId, Transform.rotation (Vec3.mk (-45) 0 0))] }) := by
  simp [setup_lighting, create_entity, hr, add_component, hf, range_one_eq]

theorem create_input_bindings_spec (host : Host) (s : SetupState)
    (hm : host.makedirsFails (input_folder host) = false)
    (ho : host.openFails (input_file host) = false)
    (hw : host.writeFails (input_file host) = false) :
    create_input_bindings host s =
      (Except.ok true,
        { s with
          dirs := s.dirs ++ [input_folder host],
          writeAttempts := s.writeAttempts ++ [input_file host],
          files := updateAssoc s.files (input_file host)
            (FileContent.bindingsDoc 1 bindings) }) := by
  simp [create_input_bindings, makedirs, hm, fsWrite, ho, hw, updateAssoc_updateAssoc]

theorem create_component_source_files_spec (host : Host) (s : SetupState)
    (hm : host.makedirsFails (gem_code_path host) = false)
    (ho1 : host.openFails (header_file host) = false)
    (hw1 : host.writeFails (header_file host) = false)
    (ho2 : host.openFails (cpp_file host) = false)
    (hw2 : host.writeFails (cpp_file host) = false) :
    create_component_source_files host s =
      (Except.ok true,
        { s with
          dirs := s.dirs ++ [gem_code_path host],
          writeAttempts := s.writeAttempts ++ [header_file host, cpp_file host],
          files := updateAssoc (updateAssoc s.files (header_file host) FileContent.headerTemplate)
            (cpp_file host) FileContent.cppTemplate }) := by
  simp [create_component_source_files, makedirs, hm, fsWrite, ho1, hw1, ho2, hw2,
        updateAssoc_updateAssoc]

theorem create_readme_spec (host : Host) (s : SetupState)
    (ho : host.openFails (readme_file host) = false)
    (hw : host.writeFails (readme_file host) = false) :
    create_readme host s =
      (Except.ok true,
        { s with
          writeAttempts := s.writeAttempts ++ [readme_file host],
          files := updateAssoc s.files (readme_file host) FileContent.readmeTemplate }) := by
  simp [create_readme, fsWrite, ho, hw, updateAssoc_updateAssoc]

theorem run_full_setup_ok_spec (host : Host) (tid : String → Nat) (s : SetupState)
    (hr : ∀ n, host.createEntityRaisesOn n = false)
    (hf : ∀ n, host.findComponentTypeIds n = [tid n])
    (hm : ∀ p, host.makedirsFails p = false)
    (ho : ∀ p, host.openFails p = false)
    (hw : ∀ p, host.writeFails p = false) :
    run_full_setup host s =
      (true,
        { s with
          nextEntityId := s.nextEntityId + 1 + 1 + 1 + 1 + 1,
          nextComponentId := s.nextComponentId + 1 + 1 + 1 + 1 + 1 + 1 + 1 + 1 + 1,
          entityNames := s.entityNames ++
            [(s.nextEntityId, "VehicleCamera"),
             (s.nextEntityId + 1, "PlayerVehicle"),
             (s.nextEntityId + 1 + 1, "GameManager"),
             (s.nextEntityId + 1 + 1 + 1, "GroundPlane"),
             (s.nextEntityId + 1 + 1 + 1 + 1, "DirectionalLight")],
          created_entities :=
            updateAssoc (updateAssoc (updateAssoc (updateAssoc (updateAssoc
              s.created_entities
              "camera" s.nextEntityId)
              "vehicle" (s.nextEntityId + 1))
              "manager" (s.nextEntityId + 1 + 1))
              "ground" (s.nextEntityId + 1 + 1 + 1))
              "light" (s.nextEntityId + 1 + 1 + 1 + 1),
          attachedComponents := s.attachedComponents ++
            [(s.nextComponentId, s.nextEntityId, "Camera"),
             (s.nextComponentId + 1, s.nextEntityId + 1, "Mesh"),
             (s.nextComponentId + 1 + 1, s.nextEntityId + 1, "PhysX Rigid Body"),
             (s.nextComponentId + 1 + 1 + 1, s.nextEntityId + 1, "PhysX Collider"),
             (s.nextComponentId + 1 + 1 + 1 + 1, s.nextEntityId + 1 + 1, "Script Canvas"),
             (s.nextComponentId + 1 + 1 + 1 + 1 + 1, s.nextEntityId + 1 + 1 + 1, "Mesh"),
             (s.nextComponentId + 1 + 1 + 1 + 1 + 1 + 1, s.nextEntityId + 1 + 1 + 1,
               "PhysX Static Rigid Body"),
             (s.nextComponentId + 1 + 1 + 1 + 1 + 1 + 1 + 1, s.nextEntityId + 1 + 1 + 1,
               "PhysX Collider"),
             (s.nextComponentId + 1 + 1 + 1 + 1 + 1 + 1 + 1 + 1, s.nextEntityId + 1 + 1 + 1 + 1,
               "Directional Light")],
          propertyCalls := s.propertyCalls ++
            [(s.nextComponentId, "Field of View", Value.num 90),
             (s.nextComponentId, "Near Clip Distance", Value.num (1/10)),
             (s.nextComponentId, "Far Clip Distance", Value.num 1000),
             (s.nextComponentId + 1 + 1, "Initial linear velocity", Value.vec3 (Vec3.mk 0 0 0)),
             (s.nextComponentId + 1 + 1, "Mass", Value.num 1500)],
          worldTransforms := s.worldTransforms ++
            [(s.nextEntityId, Transform.translation (Vec3.mk 0 (-10) 5)),
             (s.nextEntityId + 1, Transform.translation (Vec3.mk 0 0 1))],
          localTransforms := s.localTransforms ++
            [(s.nextEntityId + 1 + 1 + 1, Transform.scale (Vec3.mk 100 100 1)),
             (s.nextEntityId + 1 + 1 + 1 + 1, Transform.rotation (Vec3.mk (-45) 0 0))],
          dirs := s.dirs ++ [input_folder host, gem_code_path host],
          writeAttempts := s.writeAttempts ++
            [input_file host, header_file host, cpp_file host, readme_file host],
          files :=
            updateAssoc (updateAssoc (updateAssoc (updateAssoc
              s.files
              (input_file host) (FileContent.bindingsDoc 1 bindings))
              (header_file host) FileContent.headerTemplate)
              (cpp_file host) FileContent.cppTemplate)
              (readme_file host) FileContent.readmeTemplate }) := by
  rw [run_full_setup,
      setup_camera_entity_spec host (tid "Camera") s (hr _) (hf _)]
  simp only [step]
  rw [setup_vehicle_entity_spec host (tid "Mesh") (tid "PhysX Rigid Body")
        (tid "PhysX Collider") _ (hr _) (hf _) (hf _) (hf _)]
  simp only [step]
  rw [setup_game_manager_spec host (tid "Script Canvas") _ (hr _) (hf _)]
  simp only [step]
  rw [setup_ground_plane_spec host (tid "Mesh") (tid "PhysX Static Rigid Body")
        (tid "PhysX Collider") _ (hr _) (hf _) (hf _) (hf _)]
  simp only [step]
  rw [setup_lighting_spec host (tid "Directional Light") _ (hr _) (hf _)]
  simp only [step]
  rw [create_input_bindings_spec host _ (hm _) (ho _) (hw _)]
  simp only [step]
  rw [create_component_source_files_spec host _ (hm _) (ho _) (hw _) (ho _) (hw _)]
  simp only [step]
  rw [create_readme_spec host _ (ho _) (hw _)]
  simp only [step]
  simp [List.append_assoc]

theorem add_component_frame (host : Host) (e : Nat) (n : String) (s : SetupState) :
    (add_component host e n s).2.nextEntityId = s.nextEntityId ∧
    (add_component host e n s).2.entityNames = s.entityNames ∧
    (add_component host e n s).2.created_entities = s.created_entities ∧
    (add_component host e n s).2.propertyCalls = s.propertyCalls ∧
    (add_component host e n s).2.worldTransforms = s.worldTransforms ∧
    (add_component host e n s).2.localTransforms = s.localTransforms ∧
    (add_component host e n s).2.dirs = s.dirs ∧
    (add_component host e n s).2.writeAttempts = s.writeAttempts ∧
    (add_component host e n s).2.files = s.files := by
  simp only [add_component]
  split <;> simp

theorem add_component_snd_shape (host : Host) (e : Nat) (n : String) (s : SetupState) :
    ∃ k l, (add_component host e n s).2 =
      { s with nextComponentId := k, attachedComponents := l } := by
  simp only [add_component]
  split
  · exact ⟨s.nextComponentId, s.attachedComponents, rfl⟩
  · exact ⟨_, _, rfl⟩

theorem setup_camera_entity_ok (host : Host) (s : SetupState)
    (hr : host.createEntityRaisesOn "VehicleCamera" = false) :
    ∃ v s2, setup_camera_entity host s = (Except.ok v, s2) ∧
      s2.files = s.files ∧ s2.dirs = s.dirs ∧ s2.writeAttempts = s.writeAttempts := by
  rw [setup_camera_entity, create_entity_eq _ _ _ _ hr]
  dsimp only
  have hF := add_component_frame host s.nextEntityId "Camera"
    { s with nextEntityId := s.nextEntityId + 1,
             entityNames := s.entityNames ++ [(s.nextEntityId, "VehicleCamera")],
             created_entities := updateAssoc s.created_entities "camera" s.nextEntityId }
  obtain ⟨-, -, -, -, -, -, hdirs, hwa, hfiles⟩ := hF
  split
  · exact ⟨_, _, rfl, by simp [set_component_property, hfiles, hdirs, hwa]⟩
  · exact ⟨_, _, rfl, by simp [hfiles, hdirs, hwa]⟩

theorem add_component_files (host : Host) (e : Nat) (n : String) (s : SetupState) :
    (add_component host e n s).2.files = s.files := by
  simp only [add_component]; split <;> simp

theorem add_component_dirs (host : Host) (e : Nat) (n : String) (s : SetupState) :
    (add_component host e n s).2.dirs = s.dirs := by
  simp only [add_component]; split <;> simp

theorem add_component_writeAttempts (host : Host) (e : Nat) (n : String) (s : SetupState) :
    (add_component host e n s).2.writeAttempts = s.writeAttempts := by
  simp only [add_component]; split <;> simp

theorem add_component_propertyCalls (host : Host) (e : Nat) (n : String) (s : SetupState) :
    (add_component host e n s).2.propertyCalls = s.propertyCalls := by
  simp only [add_component]; split <;> simp

theorem setup_vehicle_entity_ok (host : Host) (s : SetupState)
    (hr : host.createEntityRaisesOn "PlayerVehicle" = false) :
    ∃ v s2, setup_vehicle_entity host s = (Except.ok v, s2) ∧
      s2.files = s.files ∧ s2.dirs = s.dirs ∧ s2.writeAttempts = s.writeAttempts := by
  rw [setup_vehicle_entity, create_entity_eq _ _ _ _ hr]
  dsimp only
  split <;>
    exact ⟨_, _, rfl, by simp [set_component_property, add_component_files,
      add_component_dirs, add_component_writeAttempts]⟩

theorem setup_game_manager_ok (host : Host) (s : SetupState)
    (hr : host.createEntityRaisesOn "GameManager" = false) :
    ∃ v s2, setup_game_manager host s = (Except.ok v, s2) ∧
      s2.files = s.files ∧ s2.dirs = s.dirs ∧ s2.writeAttempts = s.writeAttempts := by
  rw [setup_game_manager, create_entity_eq _ _ _ _ hr]
  dsimp only
  exact ⟨_, _, rfl, by simp [add_component_files, add_component_dirs,
    add_component_writeAttempts]⟩

theorem setup_ground_plane_ok (host : Host) (s : SetupState)
    (hr : host.createEntityRaisesOn "GroundPlane" = false) :
    ∃ v s2, setup_ground_plane host s = (Except.ok v, s2) ∧
      s2.files = s.files ∧ s2.dirs = s.dirs ∧ s2.writeAttempts = s.writeAttempts := by
  rw [setup_ground_plane, create_entity_eq _ _ _ _ hr]
  dsimp only
  exact ⟨_, _, rfl, by simp [add_component_files, add_component_dirs,
    add_component_writeAttempts]⟩

theorem setup_lighting_ok (host : Host) (s : SetupState)
    (hr : host.createEntityRaisesOn "DirectionalLight" = false) :
    ∃ v s2, setup_lighting host s = (Except.ok v, s2) ∧
      s2.files = s.files ∧ s2.dirs = s.dirs ∧ s2.writeAttempts = s.writeAttempts := by
  rw [setup_lighting, create_entity_eq _ _ _ _ hr]
  dsimp only
  exact ⟨_, _, rfl, by simp [add_component_files, add_component_dirs,
    add_component_writeAttempts]⟩

theorem create_input_bindings_ok (host : Host) (s : SetupState)
    (hm : host.makedirsFails (input_folder host) = false) :
    ∃ b s2, create_input_bindings host s = (Except.ok b, s2) := by
  rw [create_input_bindings, makedirs_ok _ _ _ hm]
  dsimp only
  split
  · exact ⟨_, _, rfl⟩
  · exact ⟨_, _, rfl⟩

theorem create_component_source_files_ok (host : Host) (s : SetupState)
    (hm : host.makedirsFails (gem_code_path host) = false) :
    ∃ b s2, create_component_source_files host s = (Except.ok b, s2) := by
  rw [create_component_source_files, makedirs_ok _ _ _ hm]
  dsimp only
  split
  · exact ⟨_, _, rfl⟩
  · split
    · exact ⟨_, _, rfl⟩
    · exact ⟨_, _, rfl⟩

theorem create_readme_ok (host : Host) (s : SetupState) :
    ∃ b s2, create_readme host s = (Except.ok b, s2) := by
  rw [create_readme]
  split
  · exact ⟨_, _, rfl⟩
  · exact ⟨_, _, rfl⟩

theorem run_full_setup_true (host : Host) (s : SetupState)
    (hr : ∀ n, host.createEntityRaisesOn n = false)
    (hm : ∀ p, host.makedirsFails p = false) :
    (run_full_setup host s).1 = true := by
  rw [run_full_setup]
  obtain ⟨v1, s1, h1, -, -, -⟩ := setup_camera_entity_ok host s (hr _)
  rw [h1]; simp only [step]
  obtain ⟨v2, s2, h2, -, -, -⟩ := setup_vehicle_entity_ok host s1 (hr _)
  rw [h2]; simp only [step]
  obtain ⟨v3, s3, h3, -, -, -⟩ := setup_game_manager_ok host s2 (hr _)
  rw [h3]; simp only [step]
  obtain ⟨v4, s4, h4, -, -, -⟩ := setup_ground_plane_ok host s3 (hr _)
  rw [h4]; simp only [step]
  obtain ⟨v5, s5, h5, -, -, -⟩ := setup_lighting_ok host s4 (hr _)
  rw [h5]; simp only [step]
  obtain ⟨b6, s6, h6⟩ := create_input_bindings_ok host s5 (hm _)
  rw [h6]; simp only [step]
  obtain ⟨b7, s7, h7⟩ := create_component_source_files_ok host s6 (hm _)
  rw [h7]; simp only [step]
  obtain ⟨b8, s8, h8⟩ := create_readme_ok host s7
  rw [h8]

theorem run_full_setup_ground_raise (host : Host) (s : SetupState)
    (h1 : host.createEntityRaisesOn "VehicleCamera" = false)
    (h2 : host.createEntityRaisesOn "PlayerVehicle" = false)
    (h3 : host.createEntityRaisesOn "GameManager" = false)
    (h4 : host.createEntityRaisesOn "GroundPlane" = true) :
    (run_full_setup host s).1 = false := by
  rw [run_full_setup]
  obtain ⟨v1, s1, e1, -, -, -⟩ := setup_camera_entity_ok host s h1
  rw [e1]; simp only [step]
  obtain ⟨v2, s2, e2, -, -, -⟩ := setup_vehicle_entity_ok host s1 h2
  rw [e2]; simp only [step]
  obtain ⟨v3, s3, e3, -, -, -⟩ := setup_game_manager_ok host s2 h3
  rw [e3]; simp only [step]
  rw [setup_ground_plane, create_entity_raise _ _ _ _ h4]

theorem add_component_attached_mono (host : Host) (e : Nat) (n : String) (s : SetupState) :
    ∃ tl, (add_component host e n s).2.attachedComponents = s.attachedComponents ++ tl := by
  simp only [add_component]
  split
  · exact ⟨[], (List.append_nil _).symm⟩
  · exact ⟨_, rfl⟩

theorem add_component_some_mem (host : Host) (e : Nat) (n : String) (s : SetupState) (c : Nat)
    (h : (add_component host e n s).1 = some c) :
    (c, e, n) ∈ (add_component host e n s).2.attachedComponents := by
  revert h
  simp only [add_component]
  split
  · intro h; simp at h
  · intro h
    have hc := List.mem_of_mem_head? h
    exact List.mem_append_right _ (List.mem_map_of_mem _ hc)

theorem propertyCallsSafe_extend (s s2 : SetupState) (h : propertyCallsSafe s)
    (tlA : List (Nat × Nat × String)) (hat : s2.attachedComponents = s.attachedComponents ++ tlA)
    (tlP : List (Nat × String × Value)) (hpc : s2.propertyCalls = s.propertyCalls ++ tlP)
    (hnew : ∀ pc ∈ tlP, ∃ ac ∈ s2.attachedComponents, ac.1 = pc.1) :
    propertyCallsSafe s2 := by
  intro pc hpc2
  rw [hpc] at hpc2
  rcases List.mem_append.1 hpc2 with hold | hnw
  · obtain ⟨ac, hac, he⟩ := h pc hold
    exact ⟨ac, by rw [hat]; exact List.mem_append_left _ hac, he⟩
  · exact hnew pc hnw

theorem propertyCallsSafe_setWorld (t : SetupState) (w : List (Nat × Transform))
    (h : propertyCallsSafe t) : propertyCallsSafe { t with worldTransforms := w } := h

theorem propertyCallsSafe_setLocal (t : SetupState) (w : List (Nat × Transform))
    (h : propertyCallsSafe t) : propertyCallsSafe { t with localTransforms := w } := h

theorem add_component_safe (host : Host) (e : Nat) (n : String) (t : SetupState)
    (h : propertyCallsSafe t) : propertyCallsSafe (add_component host e n t).2 := by
  obtain ⟨tl, htl⟩ := add_component_attached_mono host e n t
  exact propertyCallsSafe_extend t _ h tl htl []
    (by simp [add_component_propertyCalls]) (by simp)

theorem set_component_property_safe (host : Host) (e c : Nat) (p : String) (v : Value)
    (t : SetupState) (h : propertyCallsSafe t)
    (hc : ∃ ac ∈ t.attachedComponents, ac.1 = c) :
    propertyCallsSafe (set_component_property host e c p v t).2 := by
  intro pc hpc
  simp only [set_component_property] at hpc
  rcases List.mem_append.1 hpc with hold | hnw
  · exact h pc hold
  · obtain ⟨ac, hac, he⟩ := hc
    simp only [List.mem_singleton] at hnw
    exact ⟨ac, hac, by rw [he, hnw]⟩

theorem setup_camera_entity_safe (host : Host) (s : SetupState) (h : propertyCallsSafe s) :
    propertyCallsSafe (setup_camera_entity host s).2 := by
  cases hb : host.createEntityRaisesOn "VehicleCamera" with
  | true => rw [setup_camera_entity, create_entity_raise _ _ _ _ hb]; exact h
  | false =>
    rw [setup_camera_entity, create_entity_eq _ _ _ _ hb]
    dsimp only
    split
    · rename_i c heq
      have hmem := add_component_some_mem _ _ _ _ _ heq
      exact propertyCallsSafe_setWorld _ _
        (set_component_property_safe _ _ _ _ _ _
          (set_component_property_safe _ _ _ _ _ _
            (set_component_property_safe _ _ _ _ _ _
              (add_component_safe _ _ _ _ h) ⟨_, hmem, rfl⟩) ⟨_, hmem, rfl⟩) ⟨_, hmem, rfl⟩)
    · exact propertyCallsSafe_setWorld _ _ (add_component_safe _ _ _ _ h)

theorem setup_vehicle_entity_safe (host : Host) (s : SetupState) (h : propertyCallsSafe s) :
    propertyCallsSafe (setup_vehicle_entity host s).2 := by
  cases hb : host.createEntityRaisesOn "PlayerVehicle" with
  | true => rw [setup_vehicle_entity, create_entity_raise _ _ _ _ hb]; exact h
  | false =>
    rw [setup_vehicle_entity, create_entity_eq _ _ _ _ hb]
    dsimp only
    split
    · rename_i c heq
      have hmem := add_component_some_mem _ _ _ _ _ heq
      exact propertyCallsSafe_setWorld _ _
        (add_component_safe _ _ _ _
          (set_component_property_safe _ _ _ _ _ _
            (set_component_property_safe _ _ _ _ _ _
              (add_component_safe _ _ _ _ (add_component_safe _ _ _ _ h))
              ⟨_, hmem, rfl⟩) ⟨_, hmem, rfl⟩))
    · exact propertyCallsSafe_setWorld _ _
        (add_component_safe _ _ _ _ (add_component_safe _ _ _ _ (add_component_safe _ _ _ _ h)))

theorem setup_game_manager_safe (host : Host) (s : SetupState) (h : propertyCallsSafe s) :
    propertyCallsSafe (setup_game_manager host s).2 := by
  cases hb : host.createEntityRaisesOn "GameManager" with
  | true => rw [setup_game_manager, create_entity_raise _ _ _ _ hb]; exact h
  | false =>
    rw [setup_game_manager, create_entity_eq _ _ _ _ hb]
    exact add_component_safe _ _ _ _ h

theorem setup_ground_plane_safe (host : Host) (s : SetupState) (h : propertyCallsSafe s) :
    propertyCallsSafe (setup_ground_plane host s).2 := by
  cases hb : host.createEntityRaisesOn "GroundPlane" with
  | true => rw [setup_ground_plane, create_entity_raise _ _ _ _ hb]; exact h
  | false =>
    rw [setup_ground_plane, create_entity_eq _ _ _ _ hb]
    exact propertyCallsSafe_setLocal _ _
      (add_component_safe _ _ _ _ (add_component_safe _ _ _ _ (add_component_safe _ _ _ _ h)))

theorem setup_lighting_safe (host : Host) (s : SetupState) (h : propertyCallsSafe s) :
    propertyCallsSafe (setup_lighting host s).2 := by
  cases hb : host.createEntityRaisesOn "DirectionalLight" with
  | true => rw [setup_lighting, create_entity_raise _ _ _ _ hb]; exact h
  | false =>
    rw [setup_lighting, create_entity_eq _ _ _ _ hb]
    exact propertyCallsSafe_setLocal _ _ (add_component_safe _ _ _ _ h)

theorem makedirs_safe (host : Host) (p : String) (t : SetupState) (h : propertyCallsSafe t) :
    propertyCallsSafe (makedirs host p t).2 := by
  simp only [makedirs]
  split
  · exact h
  · exact h

theorem fsWrite_safe (host : Host) (p : String) (c : FileContent) (t : SetupState)
    (h : propertyCallsSafe t) : propertyCallsSafe (fsWrite host p c t).2 := by
  simp only [fsWrite]
  split
  · exact h
  · split
    · exact h
    · exact h

theorem create_input_bindings_safe (host : Host) (t : SetupState) (h : propertyCallsSafe t) :
    propertyCallsSafe (create_input_bindings host t).2 := by
  rw [create_input_bindings]
  split
  · rename_i e s1 heq
    have hh := makedirs_safe host (input_folder host) t h
    rw [heq] at hh
    exact hh
  · rename_i u s1 heq
    have hh := makedirs_safe host (input_folder host) t h
    rw [heq] at hh
    split
    · rename_i e2 s2 heq2
      have hh2 := fsWrite_safe host (input_file host) (FileContent.bindingsDoc 1 bindings) s1 hh
      rw [heq2] at hh2
      exact hh2
    · rename_i u2 s2 heq2
      have hh2 := fsWrite_safe host (input_file host) (FileContent.bindingsDoc 1 bindings) s1 hh
      rw [heq2] at hh2
      exact hh2

theorem create_component_source_files_safe (host : Host) (t : SetupState)
    (h : propertyCallsSafe t) :
    propertyCallsSafe (create_component_source_files host t).2 := by
  rw [create_component_source_files]
  split
  · rename_i e s1 heq
    have hh := makedirs_safe host (gem_code_path host) t h
    rw [heq] at hh
    exact hh
  · rename_i u s1 heq
    have hh := makedirs_safe host (gem_code_path host) t h
    rw [heq] at hh
    split
    · rename_i e2 s2 heq2
      have hh2 := fsWrite_safe host (header_file host) FileContent.headerTemplate s1 hh
      rw [heq2] at hh2
      exact hh2
    · rename_i u2 s2 heq2
      have hh2 := fsWrite_safe host (header_file host) FileContent.headerTemplate s1 hh
      rw [heq2] at hh2
      split
      · rename_i e3 s3 heq3
        have hh3 := fsWrite_safe host (cpp_file host) FileContent.cppTemplate s2 hh2
        rw [heq3] at hh3
        exact hh3
      · rename_i u3 s3 heq3
        have hh3 := fsWrite_safe host (cpp_file host) FileContent.cppTemplate s2 hh2
        rw [heq3] at hh3
        exact hh3

theorem create_readme_safe (host : Host) (t : SetupState) (h : propertyCallsSafe t) :
    propertyCallsSafe (create_readme host t).2 := by
  rw [create_readme]
  split
  · rename_i e s1 heq
    have hh := fsWrite_safe host (readme_file host) FileContent.readmeTemplate t h
    rw [heq] at hh
    exact hh
  · rename_i u s1 heq
    have hh := fsWrite_safe host (readme_file host) FileContent.readmeTemplate t h
    rw [heq] at hh
    exact hh

theorem step_safe {α : Type} (r : Except PyErr α × SetupState)
    (k : SetupState → Bool × SetupState) (hr : propertyCallsSafe r.2)
    (hk : ∀ t, propertyCallsSafe t → propertyCallsSafe (k t).2) :
    propertyCallsSafe (step r k).2 := by
  rcases r with ⟨e | v, t⟩
  · exact hr
  · exact hk t hr

theorem run_full_setup_safe (host : Host) (s : SetupState) (h : propertyCallsSafe s) :
    propertyCallsSafe (run_full_setup host s).2 := by
  rw [run_full_setup]
  refine step_safe _ _ (setup_camera_entity_safe host s h) (fun t1 h1 => ?_)
  refine step_safe _ _ (setup_vehicle_entity_safe host t1 h1) (fun t2 h2 => ?_)
  refine step_safe _ _ (setup_game_manager_safe host t2 h2) (fun t3 h3 => ?_)
  refine step_safe _ _ (setup_ground_plane_safe host t3 h3) (fun t4 h4 => ?_)
  refine step_safe _ _ (setup_lighting_safe host t4 h4) (fun t5 h5 => ?_)
  refine step_safe _ _ (create_input_bindings_safe host t5 h5) (fun t6 h6 => ?_)
  refine step_safe _ _ (create_component_source_files_safe host t6 h6) (fun t7 h7 => ?_)
  refine step_safe _ _ (create_readme_safe host t7 h7) (fun t8 h8 => ?_)
  exact h8

theorem create_input_bindings_openFail (host : Host) (s : SetupState)
    (hm : host.makedirsFails (input_folder host) = false)
    (ho : host.openFails (input_file host) = true) :
    create_input_bindings host s =
      (Except.ok false,
        { s with dirs := s.dirs ++ [input_folder host],
                 writeAttempts := s.writeAttempts ++ [input_file host] }) := by
  simp [create_input_bindings, makedirs, hm, fsWrite, ho]

theorem fsWrite_files_lookup (host : Host) (q : String) (c : FileContent) (s : SetupState)
    (p : String) (hne : q ≠ p) :
    lookupAssoc (fsWrite host q c s).2.files p = lookupAssoc s.files p := by
  simp only [fsWrite]
  split
  · rfl
  · split
    · exact lookupAssoc_updateAssoc_ne _ _ _ _ hne
    · rw [lookupAssoc_updateAssoc_ne _ _ _ _ hne, lookupAssoc_updateAssoc_ne _ _ _ _ hne]

theorem create_component_source_files_lookup (host : Host) (s : SetupState) (p : String)
    (hm : host.makedirsFails (gem_code_path host) = false)
    (h1 : header_file host ≠ p) (h2 : cpp_file host ≠ p) :
    ∃ b s2, create_component_source_files host s = (Except.ok b, s2) ∧
      lookupAssoc s2.files p = lookupAssoc s.files p := by
  have hl1 := fsWrite_files_lookup host (header_file host) FileContent.headerTemplate
    { s with dirs := s.dirs ++ [gem_code_path host] } p h1
  rw [create_component_source_files, makedirs_ok _ _ _ hm]
  dsimp only
  split
  · rename_i e s1 heq
    rw [heq] at hl1
    exact ⟨false, s1, rfl, hl1⟩
  · rename_i u s1 heq
    rw [heq] at hl1
    have hl2 := fsWrite_files_lookup host (cpp_file host) FileContent.cppTemplate s1 p h2
    split
    · rename_i e2 s2 heq2
      rw [heq2] at hl2
      exact ⟨false, s2, rfl, by rw [hl2, hl1]⟩
    · rename_i u2 s2 heq2
      rw [heq2] at hl2
      exact ⟨true, s2, rfl, by rw [hl2, hl1]⟩

theorem create_readme_lookup (host : Host) (s : SetupState) (p : String)
    (h1 : readme_file host ≠ p) :
    ∃ b s2, create_readme host s = (Except.ok b, s2) ∧
      lookupAssoc s2.files p = lookupAssoc s.files p := by
  have hl := fsWrite_files_lookup host (readme_file host) FileContent.readmeTemplate s p h1
  rw [create_readme]
  split
  · rename_i e s1 heq
    rw [heq] at hl
    exact ⟨false, s1, rfl, hl⟩
  · rename_i u s1 heq
    rw [heq] at hl
    exact ⟨true, s1, rfl, hl⟩

theorem run_full_setup_mkdir_raise (host : Host) (s : SetupState)
    (hr : ∀ n, host.createEntityRaisesOn n = false)
    (hm : host.makedirsFails (input_folder host) = true) :
    (run_full_setup host s).1 = false := by
  rw [run_full_setup]
  obtain ⟨v1, s1, h1, -, -, -⟩ := setup_camera_entity_ok host s (hr _)
  rw [h1]; simp only [step]
  obtain ⟨v2, s2, h2, -, -, -⟩ := setup_vehicle_entity_ok host s1 (hr _)
  rw [h2]; simp only [step]
  obtain ⟨v3, s3, h3, -, -, -⟩ := setup_game_manager_ok host s2 (hr _)
  rw [h3]; simp only [step]
  obtain ⟨v4, s4, h4, -, -, -⟩ := setup_ground_plane_ok host s3 (hr _)
  rw [h4]; simp only [step]
  obtain ⟨v5, s5, h5, -, -, -⟩ := setup_lighting_ok host s4 (hr _)
  rw [h5]; simp only [step]
  rw [create_input_bindings, makedirs_fail _ _ _ hm]

theorem create_entity_registry_untouched (host : Host) (name : String) (pid : Option Nat)
    (s : SetupState) : (create_entity host name pid s).2.created_entities = s.created_entities := by
  simp only [create_entity]
  split <;> rfl

/-- C1: the aggregate success `run_full_setup` returns is `true` whenever no
exception escapes the run body — component lookups, property sets and every
artifact open/write may fail freely, since the writers catch their own write
exceptions and report booleans that the orchestrator discards — and whenever
an exception does escape a step (an entity-creation raise mid-run, or a
`makedirs` raise outside its writer's `try`), the single top-level `except`
catches it and the run returns `false` instead of propagating. -/
theorem C1_run_success_policy :
    (∀ (host : Host) (s : SetupState),
        (∀ n, host.createEntityRaisesOn n = false) →
        (∀ p, host.makedirsFails p = false) →
        (run_full_setup host s).1 = true) ∧
    (∀ (host : Host) (s : SetupState),
        host.createEntityRaisesOn "VehicleCamera" = false →
        host.createEntityRaisesOn "PlayerVehicle" = false →
        host.createEntityRaisesOn "GameManager" = false →
        host.createEntityRaisesOn "GroundPlane" = true →
        (run_full_setup host s).1 = false) ∧
    (∀ (host : Host) (s : SetupState),
        (∀ n, host.createEntityRaisesOn n = false) →
        host.makedirsFails (input_folder host) = true →
        (run_full_setup host s).1 = false) :=
  ⟨run_full_setup_true, run_full_setup_ground_raise, run_full_setup_mkdir_raise⟩

/-- Witness for C1: on a host where every artifact open raises, every writer
reports failure yet the run returns `true`; on a host whose entity creation
raises at the ground-plane step, the run returns `false`. -/
theorem C1_run_success_policy_witness :
    (run_full_setup allWritesFailHost initialState).1 = true ∧
    (create_input_bindings allWritesFailHost initialState).1 = Except.ok false ∧
    (run_full_setup groundRaisesHost initialState).1 = false :=
  ⟨C1_run_success_policy.1 allWritesFailHost initialState (fun _ => rfl) (fun _ => rfl),
   by decide,
   C1_run_success_policy.2.1 groundRaisesHost initialState (by decide) (by decide) (by decide)
     (by decide)⟩

/-- C3: against a stub host on which every call succeeds, a full run creates
and registers exactly one entity per role — camera, vehicle, manager, ground,
light, in creation order with handles 0..4 — assigns the five fixed display
names, and applies exactly the declared transforms: world-space translations
(0, -10, 5) and (0, 0, 1) for camera and vehicle, local-space scale
(100, 100, 1) for ground, local-space rotation from Euler (-45, 0, 0) for
light, and no transform for the manager (handle 2 appears in neither
transform log). -/
theorem C3_scaffold_roles_names_transforms (host : Host) (tid : String → Nat)
    (hf : ∀ n, host.findComponentTypeIds n = [tid n])
    (hr : ∀ n, host.createEntityRaisesOn n = false)
    (hm : ∀ p, host.makedirsFails p = false)
    (ho : ∀ p, host.openFails p = false)
    (hw : ∀ p, host.writeFails p = false)
    (hps : ∀ c p, host.setPropertySuccess c p = true) :
    (run_full_setup host initialState).2.created_entities =
      [("camera", 0), ("vehicle", 1), ("manager", 2), ("ground", 3), ("light", 4)] ∧
    (run_full_setup host initialState).2.entityNames =
      [(0, "VehicleCamera"), (1, "PlayerVehicle"), (2, "GameManager"), (3, "GroundPlane"),
       (4, "DirectionalLight")] ∧
    (run_full_setup host initialState).2.worldTransforms =
      [(0, Transform.translation (Vec3.mk 0 (-10) 5)),
       (1, Transform.translation (Vec3.mk 0 0 1))] ∧
    (run_full_setup host initialState).2.localTransforms =
      [(3, Transform.scale (Vec3.mk 100 100 1)),
       (4, Transform.rotation (Vec3.mk (-45) 0 0))] := by
  rw [run_full_setup_ok_spec host tid initialState hr hf hm ho hw]
  dsimp only
  decide

/-- Witness for C3 at the concrete all-success stub host. -/
theorem C3_scaffold_roles_names_transforms_witness :
    (run_full_setup stubHost initialState).2.created_entities =
      [("camera", 0), ("vehicle", 1), ("manager", 2), ("ground", 3), ("light", 4)] ∧
    (run_full_setup stubHost initialState).2.entityNames =
      [(0, "VehicleCamera"), (1, "PlayerVehicle"), (2, "GameManager"), (3, "GroundPlane"),
       (4, "DirectionalLight")] ∧
    (run_full_setup stubHost initialState).2.worldTransforms =
      [(0, Transform.translation (Vec3.mk 0 (-10) 5)),
       (1, Transform.translation (Vec3.mk 0 0 1))] ∧
    (run_full_setup stubHost initialState).2.localTransforms =
      [(3, Transform.scale (Vec3.mk 100 100 1)),
       (4, Transform.rotation (Vec3.mk (-45) 0 0))] :=
  C3_scaffold_roles_names_transforms stubHost (fun _ => 1) (fun _ => rfl) (fun _ => rfl)
    (fun _ => rfl) (fun _ => rfl) (fun _ => rfl) (fun _ _ => rfl)

/-- C4: when the host resolves "PhysX Rigid Body" to nothing but resolves
"Mesh" and "PhysX Collider" normally, `add_component` reports the rigid body
as not found (returns `none` and changes nothing), the vehicle build issues
no property-set call at all (the rigid-body mass/velocity assignments are
skipped), yet mesh and collider are attached to the vehicle entity and its
world transform is still applied. -/
theorem C4_missing_rigid_body_isolated (host : Host) (s : SetupState) (t1 t3 : Nat)
    (hr : host.createEntityRaisesOn "PlayerVehicle" = false)
    (hmesh : host.findComponentTypeIds "Mesh" = [t1])
    (hrb : host.findComponentTypeIds "PhysX Rigid Body" = [])
    (hcol : host.findComponentTypeIds "PhysX Collider" = [t3]) :
    (∀ (e : Nat) (t : SetupState), add_component host e "PhysX Rigid Body" t = (none, t)) ∧
    ∃ s2, setup_vehicle_entity host s = (Except.ok s.nextEntityId, s2) ∧
      s2.propertyCalls = s.propertyCalls ∧
      (s.nextComponentId, s.nextEntityId, "Mesh") ∈ s2.attachedComponents ∧
      (s.nextComponentId + 1, s.nextEntityId, "PhysX Collider") ∈ s2.attachedComponents ∧
      (∀ ac ∈ s2.attachedComponents, ac.2.2 = "PhysX Rigid Body" → ac ∈ s.attachedComponents) ∧
      s2.worldTransforms = s.worldTransforms ++
        [(s.nextEntityId, Transform.translation (Vec3.mk 0 0 1))] := by
  refine ⟨fun e t => add_component_missing host e _ t hrb, ?_⟩
  rw [setup_vehicle_entity_noRB_spec host t1 t3 s hr hmesh hrb hcol]
  refine ⟨_, rfl, rfl, by simp, by simp, ?_, rfl⟩
  intro ac hac hacrb
  rcases List.mem_append.1 hac with hold | hnw
  · exact hold
  · simp only [List.mem_cons, List.mem_singleton] at hnw
    rcases hnw with rfl | rfl | h
    · simp at hacrb
    · simp at hacrb
    · exact absurd h (List.not_mem_nil _)

/-- Witness for C4 at the concrete host without a rigid-body type. -/
theorem C4_missing_rigid_body_isolated_witness :
    (∀ (e : Nat) (t : SetupState), add_component noRigidBodyHost e "PhysX Rigid Body" t = (none, t)) ∧
    ∃ s2, setup_vehicle_entity noRigidBodyHost initialState = (Except.ok 0, s2) ∧
      s2.propertyCalls = initialState.propertyCalls ∧
      (0, 0, "Mesh") ∈ s2.attachedComponents ∧
      (1, 0, "PhysX Collider") ∈ s2.attachedComponents ∧
      (∀ ac ∈ s2.attachedComponents, ac.2.2 = "PhysX Rigid Body" →
        ac ∈ initialState.attachedComponents) ∧
      s2.worldTransforms = initialState.worldTransforms ++
        [(0, Transform.translation (Vec3.mk 0 0 1))] :=
  C4_missing_rigid_body_isolated noRigidBodyHost initialState 1 1 rfl (by decide) (by decide)
    (by decide)

/-- Counterexample for C5: `create_entity` itself creates and names the
entity (handle 0, named VehicleCamera) but leaves the run registry
`created_entities` empty — registering is not a side effect of the call. -/
theorem C5_create_entity_counterexample :
    (create_entity stubHost "VehicleCamera" none initialState).1 = Except.ok 0 ∧
    (create_entity stubHost "VehicleCamera" none initialState).2.entityNames =
      [(0, "VehicleCamera")] ∧
    (create_entity stubHost "VehicleCamera" none initialState).2.created_entities = [] := by
  decide

/-- C5 as amended: `create_entity` never writes the `created_entities`
registry; it is each calling setup function that registers the returned
handle under its logical role immediately after the call, so a full run
against a succeeding host ends with every role mapped to the handle created
for it (0..4 in creation order, matching the display-name log). -/
theorem C5_registration_done_by_callers :
    (∀ (host : Host) (name : String) (pid : Option Nat) (s : SetupState),
        (create_entity host name pid s).2.created_entities = s.created_entities) ∧
    (∀ (host : Host) (tid : String → Nat),
        (∀ n, host.findComponentTypeIds n = [tid n]) →
        (∀ n, host.createEntityRaisesOn n = false) →
        (∀ p, host.makedirsFails p = false) →
        (∀ p, host.openFails p = false) →
        (∀ p, host.writeFails p = false) →
        (run_full_setup host initialState).2.created_entities =
          [("camera", 0), ("vehicle", 1), ("manager", 2), ("ground", 3), ("light", 4)] ∧
        (run_full_setup host initialState).2.entityNames =
          [(0, "VehicleCamera"), (1, "PlayerVehicle"), (2, "GameManager"), (3, "GroundPlane"),
           (4, "DirectionalLight")]) :=
  ⟨create_entity_registry_untouched,
   fun host tid hf hr hm ho hw => by
     rw [run_full_setup_ok_spec host tid initialState hr hf hm ho hw]
     dsimp only
     decide⟩

/-- Witness for C5 at the concrete stub host. -/
theorem C5_registration_done_by_callers_witness :
    (create_entity stubHost "GameManager" none initialState).2.created_entities = [] ∧
    (run_full_setup stubHost initialState).2.created_entities =
      [("camera", 0), ("vehicle", 1), ("manager", 2), ("ground", 3), ("light", 4)] :=
  ⟨C5_registration_done_by_callers.1 stubHost "GameManager" none initialState,
   (C5_registration_done_by_callers.2 stubHost (fun _ => 1) (fun _ => rfl) (fun _ => rfl)
     (fun _ => rfl) (fun _ => rfl) (fun _ => rfl)).1⟩

/-- C6: a successful `create_input_bindings` writes to the fixed
project-relative path Config/Input/vehicle_camera.inputbindings (after
creating the directory) the document with integer version tag 1 and exactly
the 8 binding records in the fixed order camera_cycle, camera_look_back,
camera_menu, photo_mode, vehicle_forward, vehicle_backward, vehicle_left,
vehicle_right, whose name fields are pairwise distinct. -/
theorem C6_input_bindings_artifact (host : Host) (s : SetupState)
    (hm : host.makedirsFails (input_folder host) = false)
    (ho : host.openFails (input_file host) = false)
    (hw : host.writeFails (input_file host) = false) :
    create_input_bindings host s =
      (Except.ok true,
        { s with dirs := s.dirs ++ [input_folder host],
                 writeAttempts := s.writeAttempts ++ [input_file host],
                 files := updateAssoc s.files (input_file host)
                   (FileContent.bindingsDoc 1 bindings) }) ∧
    input_file host =
      pjoin (pjoin (pjoin host.projectPath "Config") "Input") "vehicle_camera.inputbindings" ∧
    bindings.length = 8 ∧
    bindings.map InputBinding.name =
      ["camera_cycle", "camera_look_back", "camera_menu", "photo_mode",
       "vehicle_forward", "vehicle_backward", "vehicle_left", "vehicle_right"] ∧
    (bindings.map InputBinding.name).Nodup :=
  ⟨create_input_bindings_spec host s hm ho hw, rfl, by decide, by decide, by decide⟩

/-- Witness for C6 at the concrete stub host. -/
theorem C6_input_bindings_artifact_witness :
    create_input_bindings stubHost initialState =
      (Except.ok true,
        { initialState with
            dirs := initialState.dirs ++ [input_folder stubHost],
            writeAttempts := initialState.writeAttempts ++ [input_file stubHost],
            files := updateAssoc initialState.files (input_file stubHost)
              (FileContent.bindingsDoc 1 bindings) }) ∧
    input_file stubHost =
      pjoin (pjoin (pjoin stubHost.projectPath "Config") "Input") "vehicle_camera.inputbindings" ∧
    bindings.length = 8 ∧
    bindings.map InputBinding.name =
      ["camera_cycle", "camera_look_back", "camera_menu", "photo_mode",
       "vehicle_forward", "vehicle_backward", "vehicle_left", "vehicle_right"] ∧
    (bindings.map InputBinding.name).Nodup :=
  C6_input_bindings_artifact stubHost initialState rfl rfl rfl

/-- C9: in the fixed 8-entry binding catalogue, every record's `name` equals
its `event_name`, so consumers may treat either field as the key. -/
theorem C9_binding_names_equal_event_names :
    bindings.map InputBinding.name = bindings.map InputBinding.event_name := by decide

/-- C10: on every host behaviour, every `SetComponentProperty` call made
during a run was made with the handle of a component the host actually
attached — property assignment is only ever attempted on a non-empty
component handle, never on a missing component. -/
theorem C10_no_property_set_on_missing_component (host : Host) :
    propertyCallsSafe (run_full_setup host initialState).2 :=
  run_full_setup_safe host initialState
    (fun pc hpc => absurd hpc (List.not_mem_nil pc))


/-- C2: when the file system makes the input-binding artifact's write raise
at open (unwritable directory), that generator catches the exception and
reports `false` without propagating (each of the three generators returns a
boolean `Except.ok` whenever its `makedirs` succeeds, whatever the open/write
behaviour); the remaining generators are still invoked, attempt their own
writes, and here succeed, while the failed artifact's file is untouched. -/
theorem C2_artifact_failure_isolation (host : Host) (s : SetupState)
    (hr : ∀ n, host.createEntityRaisesOn n = false)
    (hm : ∀ p, host.makedirsFails p = false)
    (ho1 : host.openFails (input_file host) = true)
    (ho2 : host.openFails (header_file host) = false)
    (hw2 : host.writeFails (header_file host) = false)
    (ho3 : host.openFails (cpp_file host) = false)
    (hw3 : host.writeFails (cpp_file host) = false)
    (ho4 : host.openFails (readme_file host) = false)
    (hw4 : host.writeFails (readme_file host) = false)
    (ne1 : input_file host ≠ header_file host)
    (ne2 : input_file host ≠ cpp_file host)
    (ne3 : input_file host ≠ readme_file host)
    (ne4 : header_file host ≠ cpp_file host)
    (ne5 : header_file host ≠ readme_file host)
    (ne6 : cpp_file host ≠ readme_file host) :
    (∀ s0, ∃ b s2, create_input_bindings host s0 = (Except.ok b, s2)) ∧
    (∀ s0, ∃ b s2, create_component_source_files host s0 = (Except.ok b, s2)) ∧
    (∀ s0, ∃ b s2, create_readme host s0 = (Except.ok b, s2)) ∧
    (∀ s0, (create_input_bindings host s0).1 = Except.ok false) ∧
    ∃ s9, run_full_setup host s = (true, s9) ∧
      lookupAssoc s9.files (input_file host) = lookupAssoc s.files (input_file host) ∧
      lookupAssoc s9.files (header_file host) = some FileContent.headerTemplate ∧
      lookupAssoc s9.files (cpp_file host) = some FileContent.cppTemplate ∧
      lookupAssoc s9.files (readme_file host) = some FileContent.readmeTemplate ∧
      s9.writeAttempts = s.writeAttempts ++
        [input_file host, header_file host, cpp_file host, readme_file host] := by
  refine ⟨fun s0 => create_input_bindings_ok host s0 (hm _),
          fun s0 => create_component_source_files_ok host s0 (hm _),
          fun s0 => create_readme_ok host s0,
          fun s0 => by rw [create_input_bindings_openFail host s0 (hm _) ho1],
          ?_⟩
  rw [run_full_setup]
  obtain ⟨v1, s1, h1, hfi1, hd1, ha1⟩ := setup_camera_entity_ok host s (hr _)
  rw [h1]; simp only [step]
  obtain ⟨v2, s2, h2, hfi2, hd2, ha2⟩ := setup_vehicle_entity_ok host s1 (hr _)
  rw [h2]; simp only [step]
  obtain ⟨v3, s3, h3, hfi3, hd3, ha3⟩ := setup_game_manager_ok host s2 (hr _)
  rw [h3]; simp only [step]
  obtain ⟨v4, s4, h4, hfi4, hd4, ha4⟩ := setup_ground_plane_ok host s3 (hr _)
  rw [h4]; simp only [step]
  obtain ⟨v5, s5, h5, hfi5, hd5, ha5⟩ := setup_lighting_ok host s4 (hr _)
  rw [h5]; simp only [step]
  rw [create_input_bindings_openFail host s5 (hm _) ho1]; simp only [step]
  rw [create_component_source_files_spec host _ (hm _) ho2 hw2 ho3 hw3]; simp only [step]
  rw [create_readme_spec host _ ho4 hw4]; simp only [step]
  refine ⟨_, rfl, ?_, ?_, ?_, ?_, ?_⟩
  · rw [lookupAssoc_updateAssoc_ne _ _ _ _ (Ne.symm ne3),
        lookupAssoc_updateAssoc_ne _ _ _ _ (Ne.symm ne2),
        lookupAssoc_updateAssoc_ne _ _ _ _ (Ne.symm ne1),
        hfi5, hfi4, hfi3, hfi2, hfi1]
  · rw [lookupAssoc_updateAssoc_ne _ _ _ _ (Ne.symm ne5),
        lookupAssoc_updateAssoc_ne _ _ _ _ (Ne.symm ne4),
        lookupAssoc_updateAssoc_self]
  · rw [lookupAssoc_updateAssoc_ne _ _ _ _ (Ne.symm ne6),
        lookupAssoc_updateAssoc_self]
  · rw [lookupAssoc_updateAssoc_self]
  · simp [ha5, ha4, ha3, ha2, ha1, List.append_assoc]

/-- C7: running the full orchestration twice against the same stub host and
file system is idempotent on artifacts: both runs attempt the same four
artifact paths in the same order, the second run overwrites each file with
content identical to the first run's (the contents are fixed), and both runs
report the same aggregate success `true`. -/
theorem C7_rerun_idempotent (host : Host) (tid : String → Nat) (s : SetupState)
    (hr : ∀ n, host.createEntityRaisesOn n = false)
    (hf : ∀ n, host.findComponentTypeIds n = [tid n])
    (hm : ∀ p, host.makedirsFails p = false)
    (ho : ∀ p, host.openFails p = false)
    (hw : ∀ p, host.writeFails p = false)
    (ne1 : input_file host ≠ header_file host)
    (ne2 : input_file host ≠ cpp_file host)
    (ne3 : input_file host ≠ readme_file host)
    (ne4 : header_file host ≠ cpp_file host)
    (ne5 : header_file host ≠ readme_file host)
    (ne6 : cpp_file host ≠ readme_file host) :
    (run_full_setup host s).1 = true ∧
    (run_full_setup host (run_full_setup host s).2).1 = (run_full_setup host s).1 ∧
    (run_full_setup host s).2.writeAttempts = s.writeAttempts ++
      [input_file host, header_file host, cpp_file host, readme_file host] ∧
    (run_full_setup host (run_full_setup host s).2).2.writeAttempts =
      (run_full_setup host s).2.writeAttempts ++
        [input_file host, header_file host, cpp_file host, readme_file host] ∧
    lookupAssoc (run_full_setup host s).2.files (input_file host) =
      some (FileContent.bindingsDoc 1 bindings) ∧
    lookupAssoc (run_full_setup host s).2.files (header_file host) =
      some FileContent.headerTemplate ∧
    lookupAssoc (run_full_setup host s).2.files (cpp_file host) = some FileContent.cppTemplate ∧
    lookupAssoc (run_full_setup host s).2.files (readme_file host) =
      some FileContent.readmeTemplate ∧
    lookupAssoc (run_full_setup host (run_full_setup host s).2).2.files (input_file host) =
      lookupAssoc (run_full_setup host s).2.files (input_file host) ∧
    lookupAssoc (run_full_setup host (run_full_setup host s).2).2.files (header_file host) =
      lookupAssoc (run_full_setup host s).2.files (header_file host) ∧
    lookupAssoc (run_full_setup host (run_full_setup host s).2).2.files (cpp_file host) =
      lookupAssoc (run_full_setup host s).2.files (cpp_file host) ∧
    lookupAssoc (run_full_setup host (run_full_setup host s).2).2.files (readme_file host) =
      lookupAssoc (run_full_setup host s).2.files (readme_file host) := by
  rw [run_full_setup_ok_spec host tid s hr hf hm ho hw]
  dsimp only
  rw [run_full_setup_ok_spec host tid _ hr hf hm ho hw]
  dsimp only
  refine ⟨rfl, rfl, rfl, by simp [List.append_assoc], ?_, ?_, ?_, ?_, ?_, ?_, ?_, ?_⟩
  · rw [lookupAssoc_updateAssoc_ne _ _ _ _ (Ne.symm ne3),
        lookupAssoc_updateAssoc_ne _ _ _ _ (Ne.symm ne2),
        lookupAssoc_updateAssoc_ne _ _ _ _ (Ne.symm ne1),
        lookupAssoc_updateAssoc_self]
  · rw [lookupAssoc_updateAssoc_ne _ _ _ _ (Ne.symm ne5),
        lookupAssoc_updateAssoc_ne _ _ _ _ (Ne.symm ne4),
        lookupAssoc_updateAssoc_self]
  · rw [lookupAssoc_updateAssoc_ne _ _ _ _ (Ne.symm ne6),
        lookupAssoc_updateAssoc_self]
  · rw [lookupAssoc_updateAssoc_self]
  · rw [lookupAssoc_updateAssoc_ne _ _ _ _ (Ne.symm ne3),
        lookupAssoc_updateAssoc_ne _ _ _ _ (Ne.symm ne2),
        lookupAssoc_updateAssoc_ne _ _ _ _ (Ne.symm ne1),
        lookupAssoc_updateAssoc_self,
        lookupAssoc_updateAssoc_ne _ _ _ _ (Ne.symm ne3),
        lookupAssoc_updateAssoc_ne _ _ _ _ (Ne.symm ne2),
        lookupAssoc_updateAssoc_ne _ _ _ _ (Ne.symm ne1),
        lookupAssoc_updateAssoc_self]
  · rw [lookupAssoc_updateAssoc_ne _ _ _ _ (Ne.symm ne5),
        lookupAssoc_updateAssoc_ne _ _ _ _ (Ne.symm ne4),
        lookupAssoc_updateAssoc_self,
        lookupAssoc_updateAssoc_ne _ _ _ _ (Ne.symm ne5),
        lookupAssoc_updateAssoc_ne _ _ _ _ (Ne.symm ne4),
        lookupAssoc_updateAssoc_self]
  · rw [lookupAssoc_updateAssoc_ne _ _ _ _ (Ne.symm ne6),
        lookupAssoc_updateAssoc_self,
        lookupAssoc_updateAssoc_ne _ _ _ _ (Ne.symm ne6),
        lookupAssoc_updateAssoc_self]
  · rw [lookupAssoc_updateAssoc_self, lookupAssoc_updateAssoc_self]

/-- Counterexample for C8: with pre-existing content at the binding path, an
open that succeeds followed by a write that raises leaves the file truncated
by `open(p, "w")`, not in its pre-write state, while the generator reports
`false`. -/
theorem C8_write_atomicity_counterexample :
    lookupAssoc preBindingsState.files (input_file stubHost) = some (FileContent.preexisting 7) ∧
    (create_input_bindings bindingsWriteRaisesHost preBindingsState).1 = Except.ok false ∧
    lookupAssoc (create_input_bindings bindingsWriteRaisesHost preBindingsState).2.files
      (input_file stubHost) = some FileContent.truncated ∧
    FileContent.truncated ≠ FileContent.preexisting 7 := by decide

/-- C8 as amended: an artifact write that fails at open leaves the file in
its pre-write state, but a failure after a successful open leaves the file
truncated (plain `open(p, "w")` writes are not atomic); and a later
artifact's failure never modifies or removes an earlier artifact written in
the same run — whatever the source-template and README writers do, the
binding file still holds the binding document at the end of the run. -/
theorem C8_write_effects_amended :
    (∀ (host : Host) (p : String) (c : FileContent) (s0 : SetupState),
        host.openFails p = true →
        (fsWrite host p c s0).2.files = s0.files ∧
        (fsWrite host p c s0).1 = Except.error (PyErr.ioError p)) ∧
    (∀ (host : Host) (p : String) (c : FileContent) (s0 : SetupState),
        host.openFails p = false → host.writeFails p = true →
        lookupAssoc (fsWrite host p c s0).2.files p = some FileContent.truncated) ∧
    (∀ (host : Host) (s0 : SetupState),
        (∀ n, host.createEntityRaisesOn n = false) →
        (∀ q, host.makedirsFails q = false) →
        host.openFails (input_file host) = false →
        host.writeFails (input_file host) = false →
        header_file host ≠ input_file host →
        cpp_file host ≠ input_file host →
        readme_file host ≠ input_file host →
        ∃ s9, run_full_setup host s0 = (true, s9) ∧
          lookupAssoc s9.files (input_file host) = some (FileContent.bindingsDoc 1 bindings)) := by
  refine ⟨?_, ?_, ?_⟩
  · intro host p c s0 h
    rw [fsWrite_openFail _ _ _ _ h]
    exact ⟨rfl, rfl⟩
  · intro host p c s0 h1 h2
    rw [fsWrite_writeFail _ _ _ _ h1 h2]
    exact lookupAssoc_updateAssoc_self _ _ _
  · intro host s0 hr hm ho hw hne1 hne2 hne3
    rw [run_full_setup]
    obtain ⟨v1, s1, h1, hfi1, hd1, ha1⟩ := setup_camera_entity_ok host s0 (hr _)
    rw [h1]; simp only [step]
    obtain ⟨v2, s2, h2, hfi2, hd2, ha2⟩ := setup_vehicle_entity_ok host s1 (hr _)
    rw [h2]; simp only [step]
    obtain ⟨v3, s3, h3, hfi3, hd3, ha3⟩ := setup_game_manager_ok host s2 (hr _)
    rw [h3]; simp only [step]
    obtain ⟨v4, s4, h4, hfi4, hd4, ha4⟩ := setup_ground_plane_ok host s3 (hr _)
    rw [h4]; simp only [step]
    obtain ⟨v5, s5, h5, hfi5, hd5, ha5⟩ := setup_lighting_ok host s4 (hr _)
    rw [h5]; simp only [step]
    rw [create_input_bindings_spec host _ (hm _) ho hw]; simp only [step]
    obtain ⟨b7, s7, h7, hl7⟩ := create_component_source_files_lookup host
      { s5 with dirs := s5.dirs ++ [input_folder host],
                writeAttempts := s5.writeAttempts ++ [input_file host],
                files := updateAssoc s5.files (input_file host)
                  (FileContent.bindingsDoc 1 bindings) }
      (input_file host) (hm _) hne1 hne2
    rw [h7]; simp only [step]
    obtain ⟨b8, s8, h8, hl8⟩ := create_readme_lookup host s7 (input_file host) hne3
    rw [h8]; simp only [step]
    refine ⟨s8, rfl, ?_⟩
    rw [hl8, hl7]
    exact lookupAssoc_updateAssoc_self _ _ _

/-- Witness for C2 at the concrete host whose input-binding open raises. -/
theorem C2_artifact_failure_isolation_witness :
    (create_input_bindings bindingsOpenFailsHost initialState).1 = Except.ok false ∧
    ∃ s9, run_full_setup bindingsOpenFailsHost initialState = (true, s9) ∧
      lookupAssoc s9.files (header_file bindingsOpenFailsHost) = some FileContent.headerTemplate ∧
      lookupAssoc s9.files (readme_file bindingsOpenFailsHost) =
        some FileContent.readmeTemplate := by
  have H := C2_artifact_failure_isolation bindingsOpenFailsHost initialState
    (fun _ => rfl) (fun _ => rfl) (by decide) (by decide) (by decide) (by decide) (by decide)
    (by decide) (by decide) (by decide) (by decide) (by decide) (by decide) (by decide)
    (by decide)
  obtain ⟨-, -, -, h4, s9, hrun, -, hhp, -, hrp, -⟩ := H
  exact ⟨h4 initialState, s9, hrun, hhp, hrp⟩

/-- Witness for C7 at the concrete stub host. -/
theorem C7_rerun_idempotent_witness :
    (run_full_setup stubHost initialState).1 = true ∧
    (run_full_setup stubHost (run_full_setup stubHost initialState).2).1 =
      (run_full_setup stubHost initialState).1 ∧
    lookupAssoc (run_full_setup stubHost initialState).2.files (input_file stubHost) =
      some (FileContent.bindingsDoc 1 bindings) ∧
    lookupAssoc (run_full_setup stubHost (run_full_setup stubHost initialState).2).2.files
        (input_file stubHost) =
      lookupAssoc (run_full_setup stubHost initialState).2.files (input_file stubHost) := by
  have H := C7_rerun_idempotent stubHost (fun _ => 1) initialState
    (fun _ => rfl) (fun _ => rfl) (fun _ => rfl) (fun _ => rfl) (fun _ => rfl)
    (by decide) (by decide) (by decide) (by decide) (by decide) (by decide)
  exact ⟨H.1, H.2.1, H.2.2.2.2.1, H.2.2.2.2.2.2.2.2.1⟩

/-- Witness for C8: the truncation case at the concrete host, and the
persistence of the binding artifact through the rest of a stub run. -/
theorem C8_write_effects_amended_witness :
    lookupAssoc (fsWrite bindingsWriteRaisesHost (input_file stubHost)
        (FileContent.bindingsDoc 1 bindings) preBindingsState).2.files
      (input_file stubHost) = some FileContent.truncated ∧
    ∃ s9, run_full_setup stubHost initialState = (true, s9) ∧
      lookupAssoc s9.files (input_file stubHost) = some (FileContent.bindingsDoc 1 bindings) := by
  refine ⟨C8_write_effects_amended.2.1 bindingsWriteRaisesHost (input_file stubHost)
    (FileContent.bindingsDoc 1 bindings) preBindingsState (by decide) (by decide), ?_⟩
  exact C8_write_effects_amended.2.2 stubHost initialState (fun _ => rfl) (fun _ => rfl)
    rfl rfl (by decide) (by decide) (by decide)
